import Mathlib

/-!
Verification of the dnm-clock-poc timer core.

This file is a shallow embedding of the two timekeeping subsystems of the
repository:

* the canvas clock kernel, a worker defined by the string
  `CLOCK_WORKER_SCRIPT` (state machine over `baseTimeMs`, `startTimeMs`,
  `isRunning`, `lastRenderedSecond`, a `requestAnimationFrame` render loop and
  a `paint` routine that composes an `HH:MM:SS` string from the `DIGITS`
  lookup table);

* the reconciliation store, the hook `useBroadcastMatchTimer`
  (`formatTime`, `calculateState`, `emitChange`, and the `start` / `pause` /
  `setTime` actions, woken by content-free `TICK` messages from
  `TIMER_WORKER_SCRIPT`).

Timestamps (`performance.now()` readings) are modelled as integers in
milliseconds; command payload values in the well-formed models are integers.
JavaScript `Math.floor` of a quotient of integers is `Int.fdiv`.  Side
effects are made explicit: handlers return the painted second / the list of
posted messages / whether listeners were notified.

A second, lower-level model (`rawOnMessage`) embeds the kernel `onmessage`
handler over JavaScript-like values (`JsPrim`), so that malformed payloads
(absent `payload`, objects with missing fields) and the resulting `NaN`
propagation or thrown `TypeError`s are represented faithfully.
-/

-- ---------------------------------------------------------------------------
-- Pure helpers shared by both subsystems
-- ---------------------------------------------------------------------------

/-- Models JavaScript `s.padStart(2, "0")`: pad `s` on the left with the
character 0 up to length two. -/
def jsPadStart2 (s : String) : String :=
  if s.length ≥ 2 then s else String.mk (List.replicate (2 - s.length) '0') ++ s

/-- Embeds `formatTime` from `src/lib/useBroadcastMatchTimer.ts` (lines
38-43): `h = Math.floor(totalSeconds/3600)`, `m = Math.floor((totalSeconds %
3600)/60)`, `s = Math.floor(totalSeconds % 60)`, each rendered with
`toString().padStart(2, "0")` and joined by colons.  The store only ever
feeds it the clamped, non-negative `totalSeconds` (see `calculateState`), so
the domain is `Nat`; on naturals, JavaScript floor division and remainder
coincide with `Nat` division and remainder. -/
def formatTime (totalSeconds : Nat) : String :=
  jsPadStart2 (Nat.repr (totalSeconds / 3600)) ++ ":" ++
    jsPadStart2 (Nat.repr (totalSeconds % 3600 / 60)) ++ ":" ++
    jsPadStart2 (Nat.repr (totalSeconds % 60))

/-- Spec-side rendering of a two-digit zero-padded field, written
independently of the source's `padStart` lookup so that theorems comparing
the painted fields against the spec's wording are not restatements of the
code. -/
def pad2 (n : Nat) : String :=
  if n < 10 then "0" ++ Nat.repr n else Nat.repr n

-- ---------------------------------------------------------------------------
-- Kernel (CLOCK_WORKER_SCRIPT), well-formed-command model
-- ---------------------------------------------------------------------------

/-- Embeds the kernel's `DIGITS` table
(`Array.from({length: 60}, (_, i) => i.toString().padStart(2, "0"))`,
`src/hooks/useBroadcastMatchTimer.ts` line 483): the sixty two-digit strings
00 .. 59, precomputed once at kernel startup. -/
def DIGITS : List String := (List.range 60).map (fun i => jsPadStart2 (Nat.repr i))

/-- JavaScript array indexing `DIGITS[i]` (in-range reads only; every index
the kernel produces is below 60, as proved below). -/
def digitAt (i : Nat) : String := DIGITS.getD i ""

/-- Embeds the time-string composition step of the kernel's `paint`
(lines 524-534): `absSeconds = Math.abs(displaySeconds)`;
hours digit pair `DIGITS[Math.floor(absSeconds / 3600) % 60]`, minutes
`DIGITS[Math.floor((absSeconds % 3600) / 60)]`, seconds
`DIGITS[Math.floor(absSeconds % 60)]`, prefixed with a minus sign when
`displaySeconds < 0`.  The surrounding canvas calls (clear, fill, shadow,
dot) do not affect the composed string. -/
def timeText (displaySeconds : Int) : String :=
  let absSeconds := displaySeconds.natAbs
  let h := digitAt (absSeconds / 3600 % 60)
  let m := digitAt (absSeconds % 3600 / 60)
  let s := digitAt (absSeconds % 60)
  let sign := if displaySeconds < 0 then "-" else ""
  sign ++ h ++ ":" ++ m ++ ":" ++ s

/-- The kernel's mutable clock state (the `state` object of
`CLOCK_WORKER_SCRIPT`, display-surface geometry and config omitted in this
well-formed model; they are carried by the raw model below). -/
structure KState where
  baseTimeMs : Int
  startTimeMs : Int
  isRunning : Bool
  lastRenderedSecond : Int
deriving DecidableEq, Repr

/-- The kernel's state at worker startup: `baseTimeMs: 0, startTimeMs: 0,
isRunning: false, lastRenderedSecond: -1`. -/
def kInitialState : KState :=
  { baseTimeMs := 0, startTimeMs := 0, isRunning := false, lastRenderedSecond := -1 }

/-- Embeds the INIT handler's clock-state effect (lines 583-596):
`baseTimeMs = initialSeconds * 1000`, `lastRenderedSecond = initialSeconds`,
one immediate `paint(initialSeconds)` (returned as the painted second). -/
def kInit (initialSeconds : Int) (s : KState) : KState × Int :=
  ({ s with baseTimeMs := initialSeconds * 1000, lastRenderedSecond := initialSeconds },
   initialSeconds)

/-- Embeds the START handler (lines 620-625): no-op while running, otherwise
set the running flag and anchor `startTimeMs` to now (the rescheduling of the
render loop carries no clock-state effect). -/
def kStart (now : Int) (s : KState) : KState :=
  if s.isRunning then s
  else { s with isRunning := true, startTimeMs := now }

/-- Embeds the PAUSE handler (lines 627-632): no-op while stopped, otherwise
clear the running flag, cancel the scheduled frame, and fold the elapsed
running time into the base: `baseTimeMs += performance.now() - startTimeMs`. -/
def kPause (now : Int) (s : KState) : KState :=
  if s.isRunning then
    { s with isRunning := false, baseTimeMs := s.baseTimeMs + (now - s.startTimeMs) }
  else s

/-- Embeds the SET_TIME handler (lines 634-641): `baseTimeMs =
seconds * 1000`; while running, re-anchor `startTimeMs` to now;
`lastRenderedSecond = seconds`; paint `seconds` (returned). -/
def kSetTime (now : Int) (seconds : Int) (s : KState) : KState × Int :=
  ({ s with
      baseTimeMs := seconds * 1000,
      startTimeMs := if s.isRunning then now else s.startTimeMs,
      lastRenderedSecond := seconds },
   seconds)

/-- Embeds the ADJUST_TIME handler (lines 643-656): `baseTimeMs +=
deltaSeconds * 1000`; recompute the current total (adding `now - startTimeMs`
only while running); `newSecond = Math.floor(currentTotalMs / 1000)`;
`lastRenderedSecond = newSecond`; paint `newSecond` (returned). -/
def kAdjustTime (now : Int) (deltaSeconds : Int) (s : KState) : KState × Int :=
  let base := s.baseTimeMs + deltaSeconds * 1000
  let currentTotalMs := base + (if s.isRunning then now - s.startTimeMs else 0)
  let newSecond := Int.fdiv currentTotalMs 1000
  ({ s with baseTimeMs := base, lastRenderedSecond := newSecond }, newSecond)

/-- The anchor-based elapsed-time formula (spec invariant I1) as the kernel
evaluates it inside `loop` and ADJUST_TIME: `baseTimeMs + (isRunning ?
now - startTimeMs : 0)`. -/
def kTotalMs (s : KState) (now : Int) : Int :=
  s.baseTimeMs + (if s.isRunning then now - s.startTimeMs else 0)

/-- Embeds one invocation of the kernel's render `loop` (lines 562-577):
return unchanged while stopped; otherwise recompute the current whole second
`Math.floor((baseTimeMs + (now - startTimeMs)) / 1000)` and, only when it
differs from `lastRenderedSecond`, record it and paint (the Boolean reports
whether the expensive paint fired).  The self-rescheduling via
`requestAnimationFrame` has no clock-state effect. -/
def kLoopStep (now : Int) (s : KState) : KState × Bool :=
  if s.isRunning then
    let currentSecond := Int.fdiv (s.baseTimeMs + (now - s.startTimeMs)) 1000
    if currentSecond ≠ s.lastRenderedSecond then
      ({ s with lastRenderedSecond := currentSecond }, true)
    else (s, false)
  else (s, false)

/-- Runs the render loop at the given sequence of frame times, counting how
many invocations performed the expensive paint. -/
def kRunLoop (ts : List Int) (s : KState) : KState × Nat :=
  match ts with
  | [] => (s, 0)
  | t :: rest =>
    let r := kLoopStep t s
    let r2 := kRunLoop rest r.1
    (r2.1, (if r.2 then 1 else 0) + r2.2)

-- ---------------------------------------------------------------------------
-- Reconciliation store (useBroadcastMatchTimer, src/lib)
-- ---------------------------------------------------------------------------

/-- The store's immutable snapshot record (replaced wholesale, never mutated
in place). -/
structure Snapshot where
  displayTime : String
  totalSeconds : Int
  isRunning : Bool
deriving DecidableEq, Repr

/-- The store's state (`store.current`): the authoritative clock fields, the
cached snapshot, and whether the worker reference is non-null (`false` models
`worker: null` after a failed initialization — see `storeInit`). -/
structure StoreState where
  baseDurationMs : Int
  startTimeMs : Int
  isRunning : Bool
  snapshot : Snapshot
  worker : Bool
deriving DecidableEq, Repr

/-- The store's evaluation of the anchor formula inside `calculateState`
(lines 99-109): `currentTotalMs = baseDurationMs + (isRunning ? now -
startTimeMs : 0)`. -/
def storeTotalMs (st : StoreState) (now : Int) : Int :=
  st.baseDurationMs + (if st.isRunning then now - st.startTimeMs else 0)

/-- Embeds `calculateState` (lines 99-117): `totalSeconds = Math.max(0,
Math.floor(currentTotalMs / 1000))` (clamped to zero), formatted display
string, and the current running flag.  The clamp makes `totalSeconds`
non-negative, so feeding `formatTime` its `toNat` image is exact. -/
def calculateState (st : StoreState) (now : Int) : Snapshot :=
  let totalSeconds : Int := max 0 (Int.fdiv (storeTotalMs st now) 1000)
  { displayTime := formatTime totalSeconds.toNat
    totalSeconds := totalSeconds
    isRunning := st.isRunning }

/-- Embeds `emitChange` (lines 119-129): recompute the candidate snapshot
and, only if its `totalSeconds` or `isRunning` differs from the cached
snapshot, replace the snapshot and notify every listener (the Boolean
reports whether listeners were notified). -/
def emitChange (now : Int) (st : StoreState) : StoreState × Bool :=
  let newState := calculateState st now
  if newState.totalSeconds ≠ st.snapshot.totalSeconds ∨
      newState.isRunning ≠ st.snapshot.isRunning then
    ({ st with snapshot := newState }, true)
  else (st, false)

/-- Result of one store action: the new store state, the messages posted to
the worker, and whether listeners were notified. -/
structure ActionOut where
  state : StoreState
  posted : List String
  notified : Bool
deriving DecidableEq, Repr

/-- Embeds the `start` action (lines 180-188): early return while running;
otherwise set the running flag, anchor `startTimeMs` to now, post START to
the worker when the reference is non-null, and call `emitChange`. -/
def storeStart (now : Int) (st : StoreState) : ActionOut :=
  if st.isRunning then { state := st, posted := [], notified := false }
  else
    let st1 := { st with isRunning := true, startTimeMs := now }
    let e := emitChange now st1
    { state := e.1, posted := if st1.worker then ["START"] else [], notified := e.2 }

/-- Embeds the `pause` action (lines 190-201): early return while stopped;
otherwise fold `now - startTimeMs` into `baseDurationMs`, clear the running
flag, post STOP to the worker when the reference is non-null, and call
`emitChange`. -/
def storePause (now : Int) (st : StoreState) : ActionOut :=
  if st.isRunning then
    let st1 := { st with
      baseDurationMs := st.baseDurationMs + (now - st.startTimeMs),
      isRunning := false }
    let e := emitChange now st1
    { state := e.1, posted := if st1.worker then ["STOP"] else [], notified := e.2 }
  else { state := st, posted := [], notified := false }

/-- Embeds the `setTime` action (lines 203-217): `baseDurationMs =
seconds * 1000`; while running, re-anchor `startTimeMs` to now; call
`emitChange`.  The action posts no message to the worker. -/
def storeSetTime (now : Int) (seconds : Int) (st : StoreState) : ActionOut :=
  let st1 := { st with
    baseDurationMs := seconds * 1000,
    startTimeMs := if st.isRunning then now else st.startTimeMs }
  let e := emitChange now st1
  { state := e.1, posted := [], notified := e.2 }

/-- Embeds the store's initialization (hook body, lines 72-93, plus the
worker-creating effect, lines 148-174): local state and the initial snapshot
are built unconditionally; inside the try block the only store mutation is
installing the worker reference, so when the `Worker` constructor throws the
catch block logs "Clock Worker Init Failed:" via `console.error`, the
exception does not escape, and the reference stays null (`worker := false`).
The hook's callers pass non-negative initial second counts. -/
def storeInit (initialSeconds : Nat) (workerOk : Bool) : StoreState × List String :=
  ({ baseDurationMs := (initialSeconds : Int) * 1000
     startTimeMs := 0
     isRunning := false
     snapshot := { displayTime := formatTime initialSeconds
                   totalSeconds := (initialSeconds : Int)
                   isRunning := false }
     worker := workerOk },
   if workerOk then [] else ["Clock Worker Init Failed:"])

/-- Embeds the hook's worker-message handler (lines 158-163): each TICK wake
signal triggers one `emitChange`.  Folds a sequence of TICK arrival times,
counting how many of them replaced the snapshot and notified listeners. -/
def storeRunTicks (ts : List Int) (st : StoreState) : StoreState × Nat :=
  match ts with
  | [] => (st, 0)
  | t :: rest =>
    let r := emitChange t st
    let r2 := storeRunTicks rest r.1
    (r2.1, (if r.2 then 1 else 0) + r2.2)

-- ---------------------------------------------------------------------------
-- Kernel onmessage handler over JavaScript-like values (raw model)
-- ---------------------------------------------------------------------------

/-- JavaScript primitive values as they can occur in command payload fields
and in the kernel's state fields once an unvalidated payload has been written
into them: `undefined`, `NaN`, integer numbers, booleans and strings.
Fractional numbers and nested objects do not occur in any claim and are
outside the modelled value space. -/
inductive JsPrim where
  | undef : JsPrim
  | nan : JsPrim
  | int : Int → JsPrim
  | bool : Bool → JsPrim
  | str : String → JsPrim
deriving DecidableEq, Repr

/-- JavaScript `ToNumber` on the modelled primitives: `undefined` gives
`NaN`, booleans give 0 or 1, and strings are trimmed and parsed (the empty
string gives 0, non-numeric strings give `NaN`; fractional numeric strings
are outside the modelled space). -/
def jsToNumber (v : JsPrim) : JsPrim :=
  match v with
  | .undef => .nan
  | .nan => .nan
  | .int n => .int n
  | .bool b => .int (if b then 1 else 0)
  | .str s =>
    match s.trim.toInt? with
    | some n => .int n
    | none => if s.trim.isEmpty then .int 0 else .nan

/-- JavaScript `v * 1000` on a payload field value: `ToNumber` the operand
and multiply; `NaN` is absorbing. -/
def jsMul1000 (v : JsPrim) : JsPrim :=
  match jsToNumber v with
  | .int n => .int (n * 1000)
  | _ => .nan

/-- JavaScript numeric `+` as used on the kernel's state fields.  In the
handler both operands are always numbers (`baseTimeMs` and `startTimeMs` are
only ever assigned numeric results), so string concatenation is unreachable
here. -/
def jsAdd (a b : JsPrim) : JsPrim :=
  match jsToNumber a, jsToNumber b with
  | .int x, .int y => .int (x + y)
  | _, _ => .nan

/-- JavaScript numeric `-` (always numeric: `-` applies `ToNumber`). -/
def jsSub (a b : JsPrim) : JsPrim :=
  match jsToNumber a, jsToNumber b with
  | .int x, .int y => .int (x - y)
  | _, _ => .nan

/-- JavaScript `Math.floor(v / 1000)`: floor division, with `NaN` absorbing. -/
def jsFdiv1000 (v : JsPrim) : JsPrim :=
  match jsToNumber v with
  | .int n => .int (Int.fdiv n 1000)
  | _ => .nan

/-- JavaScript `v >= 0` (the RESIZE / UPDATE_CONFIG repaint guard
`state.lastRenderedSecond >= 0`): relational operators apply `ToNumber`, and
any comparison with `NaN` is false. -/
def jsGe0 (v : JsPrim) : Bool :=
  match jsToNumber v with
  | .int n => decide (0 ≤ n)
  | _ => false

/-- JavaScript `v === 0` (the paint guard `state.width === 0`): strict
equality, true only for the number 0. -/
def jsEq0 (v : JsPrim) : Bool :=
  match v with
  | .int n => decide (n = 0)
  | _ => false

/-- A payload as delivered in `e.data.payload`: either absent / `undefined`
(`none`) or an object, modelled as its list of fields (`some`).  Reading a
field of an object that lacks it yields `undefined`; reading a field of
`undefined` throws a `TypeError`. -/
def fieldGet (payload : Option (List (String × JsPrim))) (key : String) :
    Except Unit JsPrim :=
  match payload with
  | none => .error ()
  | some fields => .ok ((List.lookup key fields).getD .undef)

/-- An incoming command message `e.data`, destructured by the handler into
its `type` tag and its `payload`. -/
structure RawMsg where
  type : String
  payload : Option (List (String × JsPrim))
deriving DecidableEq, Repr

/-- The kernel's full mutable state for the raw model: the four clock fields
(of JavaScript value type, since unvalidated payload values flow into them),
the surface geometry, the config object (`none` after UPDATE_CONFIG with an
absent payload sets it to `undefined`), and whether a 2d context has been
obtained.  The canvas bitmap itself carries no clock-state information. -/
structure RawKState where
  baseTimeMs : JsPrim
  startTimeMs : JsPrim
  isRunning : Bool
  lastRenderedSecond : JsPrim
  width : JsPrim
  height : JsPrim
  dpr : JsPrim
  config : Option (List (String × JsPrim))
  hasCtx : Bool
deriving DecidableEq, Repr

/-- The kernel script's initial `state.config` object. -/
def rawDefaultConfig : List (String × JsPrim) :=
  [("backgroundColor", .str "#0f172a"),
   ("textColor", .str "#22c55e"),
   ("fontFamily", .str "\x27Courier New\x27, monospace"),
   ("glowEffect", .bool true),
   ("showDot", .bool true)]

/-- Embeds `paint` (lines 502-560) at the raw level, tracking only
termination behaviour: return immediately when there is no context or the
width or height is strictly equal to 0; otherwise the first statement that
touches the config object (`ctx.fillStyle = config.backgroundColor`) throws
a `TypeError` when `config` is `undefined` and succeeds otherwise (string
composition, array indexing — even with a `NaN` index — and the canvas calls
never throw; missing config fields merely read as `undefined`). -/
def paintRaw (s : RawKState) : Except Unit Unit :=
  if ¬ s.hasCtx ∨ jsEq0 s.width ∨ jsEq0 s.height then .ok ()
  else
    match s.config with
    | none => .error ()
    | some _ => .ok ()

/-- Embeds the kernel's `self.onmessage` switch (lines 579-658) over
JavaScript-like messages.  `.error ()` means the handler threw (a
`TypeError` escaping `onmessage`); `.ok` returns the state after the
handler ran to completion.  For INIT, every payload representable in the
modelled value space either lacks `payload` (so `payload.canvas` throws) or
carries a non-canvas `canvas` field, on which `.getContext` throws; a
genuine `OffscreenCanvas` is outside the modelled space, INIT being the
bootstrap message rather than a runtime command. -/
def rawOnMessage (now : Int) (msg : RawMsg) (s : RawKState) :
    Except Unit RawKState :=
  match msg.type with
  | "INIT" => do
    let _ ← fieldGet msg.payload "canvas"
    .error ()
  | "RESIZE" => do
    let w ← fieldGet msg.payload "width"
    let h ← fieldGet msg.payload "height"
    let d ← fieldGet msg.payload "dpr"
    let s1 := { s with width := w, height := h, dpr := d }
    if jsGe0 s1.lastRenderedSecond then do
      let _ ← paintRaw s1
      pure s1
    else pure s1
  | "UPDATE_CONFIG" =>
    let s1 := { s with config := msg.payload }
    if jsGe0 s1.lastRenderedSecond then do
      let _ ← paintRaw s1
      pure s1
    else pure s1
  | "START" =>
    if s.isRunning then pure s
    else pure { s with isRunning := true, startTimeMs := .int now }
  | "PAUSE" =>
    if s.isRunning then
      pure { s with
        isRunning := false,
        baseTimeMs := jsAdd s.baseTimeMs (jsSub (.int now) s.startTimeMs) }
    else pure s
  | "SET_TIME" => do
    let secs ← fieldGet msg.payload "seconds"
    let s1 := { s with
      baseTimeMs := jsMul1000 secs,
      startTimeMs := if s.isRunning then .int now else s.startTimeMs,
      lastRenderedSecond := secs }
    let _ ← paintRaw s1
    pure s1
  | "ADJUST_TIME" => do
    let delta ← fieldGet msg.payload "deltaSeconds"
    let base1 := jsAdd s.baseTimeMs (jsMul1000 delta)
    let total := if s.isRunning then jsAdd base1 (jsSub (.int now) s.startTimeMs) else base1
    let sec := jsFdiv1000 total
    let s1 := { s with baseTimeMs := base1, lastRenderedSecond := sec }
    let _ ← paintRaw s1
    pure s1
  | _ => pure s

/-- A concrete healthy kernel state (as after a successful INIT at zero
seconds and a RESIZE to an 800 by 400 surface), used to exhibit the raw
handler's behaviour on malformed messages. -/
def rawReadyState : RawKState :=
  { baseTimeMs := .int 0
    startTimeMs := .int 0
    isRunning := false
    lastRenderedSecond := .int 0
    width := .int 800
    height := .int 400
    dpr := .int 1
    config := some rawDefaultConfig
    hasCtx := true }

-- ---------------------------------------------------------------------------
-- Concrete sample states (used by witnesses)
-- ---------------------------------------------------------------------------

/-- A concrete running kernel state used to instantiate hypotheses. -/
def kSample : KState :=
  { baseTimeMs := 0, startTimeMs := 0, isRunning := true, lastRenderedSecond := -1 }

/-- A concrete running store state used to instantiate hypotheses. -/
def stSample : StoreState :=
  { baseDurationMs := 0, startTimeMs := 0, isRunning := true
    snapshot := { displayTime := formatTime 0, totalSeconds := 0, isRunning := false }
    worker := true }

/-- A concrete store state whose worker reference is null, as after a failed
worker construction. -/
def stNoWorker : StoreState :=
  { baseDurationMs := 0, startTimeMs := 0, isRunning := false
    snapshot := { displayTime := formatTime 0, totalSeconds := 0, isRunning := false }
    worker := false }

/-- A concrete store state already displaying second 5 while stopped, used
to exercise setTime with an unchanged visible tuple. -/
def stDirty : StoreState :=
  { baseDurationMs := 5000, startTimeMs := 0, isRunning := false
    snapshot := { displayTime := formatTime 5, totalSeconds := 5, isRunning := false }
    worker := true }

-- ---------------------------------------------------------------------------
-- Helper lemmas
-- ---------------------------------------------------------------------------

/-- Floor division by 1000 agrees with Euclidean division (the divisor is
positive), letting omega reason about painted seconds. -/
theorem fdiv_thousand (a : Int) : Int.fdiv a 1000 = a / 1000 :=
  Int.fdiv_eq_ediv a (by norm_num)

@[simp] theorem emitChange_base (now : Int) (st : StoreState) :
    (emitChange now st).1.baseDurationMs = st.baseDurationMs := by
  unfold emitChange; dsimp only; split <;> rfl

@[simp] theorem emitChange_anchor (now : Int) (st : StoreState) :
    (emitChange now st).1.startTimeMs = st.startTimeMs := by
  unfold emitChange; dsimp only; split <;> rfl

@[simp] theorem emitChange_run (now : Int) (st : StoreState) :
    (emitChange now st).1.isRunning = st.isRunning := by
  unfold emitChange; dsimp only; split <;> rfl

@[simp] theorem emitChange_worker (now : Int) (st : StoreState) :
    (emitChange now st).1.worker = st.worker := by
  unfold emitChange; dsimp only; split <;> rfl

@[simp] theorem storeStart_base (now : Int) (st : StoreState) :
    (storeStart now st).state.baseDurationMs = st.baseDurationMs := by
  unfold storeStart; split <;> simp

@[simp] theorem storeStart_run (now : Int) (st : StoreState) :
    (storeStart now st).state.isRunning = true := by
  unfold storeStart
  split
  · next h => simpa using h
  · simp

@[simp] theorem storeStart_anchor (now : Int) (st : StoreState) :
    (storeStart now st).state.startTimeMs = if st.isRunning then st.startTimeMs else now := by
  unfold storeStart; split <;> simp_all

@[simp] theorem storeStart_worker (now : Int) (st : StoreState) :
    (storeStart now st).state.worker = st.worker := by
  unfold storeStart; split <;> simp

@[simp] theorem storePause_base (now : Int) (st : StoreState) :
    (storePause now st).state.baseDurationMs
      = st.baseDurationMs + (if st.isRunning then now - st.startTimeMs else 0) := by
  unfold storePause; split <;> simp_all

@[simp] theorem storePause_run (now : Int) (st : StoreState) :
    (storePause now st).state.isRunning = false := by
  unfold storePause
  split
  · simp
  · next h => simpa using h

@[simp] theorem storePause_anchor (now : Int) (st : StoreState) :
    (storePause now st).state.startTimeMs = st.startTimeMs := by
  unfold storePause; split <;> simp

@[simp] theorem storePause_worker (now : Int) (st : StoreState) :
    (storePause now st).state.worker = st.worker := by
  unfold storePause; split <;> simp

@[simp] theorem storeSetTime_base (now secs : Int) (st : StoreState) :
    (storeSetTime now secs st).state.baseDurationMs = secs * 1000 := by
  unfold storeSetTime; simp

@[simp] theorem storeSetTime_run (now secs : Int) (st : StoreState) :
    (storeSetTime now secs st).state.isRunning = st.isRunning := by
  unfold storeSetTime; simp

@[simp] theorem storeSetTime_anchor (now secs : Int) (st : StoreState) :
    (storeSetTime now secs st).state.startTimeMs
      = if st.isRunning then now else st.startTimeMs := by
  unfold storeSetTime; simp

theorem storeStart_noop (now : Int) (st : StoreState) (h : st.isRunning = true) :
    storeStart now st = { state := st, posted := [], notified := false } := by
  simp [storeStart, h]

theorem storePause_noop (now : Int) (st : StoreState) (h : st.isRunning = false) :
    storePause now st = { state := st, posted := [], notified := false } := by
  simp [storePause, h]

-- ---------------------------------------------------------------------------
-- C1: pause/resume conservation
-- ---------------------------------------------------------------------------

/-- C1: pause/resume conservation.  For every initial base duration, starting
at t0, pausing at t0+5s, idling any amount, starting again and letting 2 more
seconds elapse yields a total of the prior base plus 7 seconds, for the
kernel PAUSE handler and the store pause action alike; moreover PAUSE always
folds the running elapsed time into the base and clears the running flag. -/
theorem C1_pause_resume_conservation :
    (∀ b t0 idle : Int,
      (kTotalMs
        (kStart (t0 + 5000 + idle)
          (kPause (t0 + 5000)
            (kStart t0
              { baseTimeMs := b, startTimeMs := 0, isRunning := false,
                lastRenderedSecond := -1 })))
        (t0 + 5000 + idle + 2000) = b + 7000)) ∧
    (∀ b t0 idle : Int,
      ∀ snap : Snapshot,
      (storeTotalMs
        ((storeStart (t0 + 5000 + idle)
          ((storePause (t0 + 5000)
            ((storeStart t0
              { baseDurationMs := b, startTimeMs := 0, isRunning := false,
                snapshot := snap, worker := true }).state)).state)).state)
        (t0 + 5000 + idle + 2000) = b + 7000)) ∧
    (∀ (k : Nat) (t0 idle : Int),
      ∀ snap : Snapshot,
      ((calculateState
        ((storeStart (t0 + 5000 + idle)
          ((storePause (t0 + 5000)
            ((storeStart t0
              { baseDurationMs := (k : Int) * 1000, startTimeMs := 0, isRunning := false,
                snapshot := snap, worker := true }).state)).state)).state)
        (t0 + 5000 + idle + 2000)).totalSeconds = (k : Int) + 7)) ∧
    (∀ (s : KState) (now : Int),
      (kPause now s).baseTimeMs
          = s.baseTimeMs + (if s.isRunning then now - s.startTimeMs else 0) ∧
      (kPause now s).isRunning = false) ∧
    (∀ (st : StoreState) (now : Int),
      (storePause now st).state.baseDurationMs
          = st.baseDurationMs + (if st.isRunning then now - st.startTimeMs else 0) ∧
      (storePause now st).state.isRunning = false) := by
  refine ⟨?_, ?_, ?_, ?_, ?_⟩
  · intro b t0 idle
    simp [kStart, kPause, kTotalMs]
    ring
  · intro b t0 idle snap
    simp [storeTotalMs]
    ring
  · intro k t0 idle snap
    simp [calculateState, storeTotalMs, fdiv_thousand]
    omega
  · intro s now
    cases hs : s.isRunning <;> simp [kPause, hs]
  · intro st now
    simp

-- ---------------------------------------------------------------------------
-- C2: re-anchor on SET_TIME while running
-- ---------------------------------------------------------------------------

/-- C2: re-anchor on SET_TIME while running.  SET_TIME(n) sets the base to
n*1000 and, exactly when running, resets the anchor to now — so the total d
milliseconds later is n*1000 plus d while running, and n*1000 while stopped
(the anchor untouched); in particular start, advance 5s, SET_TIME(3600),
advance 1s reports second 3601, not 3606.  Holds for the kernel SET_TIME
handler and the store setTime action alike. -/
theorem C2_set_time_reanchor :
    (∀ (s : KState) (now n d : Int),
      (kSetTime now n s).1.baseTimeMs = n * 1000 ∧
      (kSetTime now n s).1.startTimeMs = (if s.isRunning then now else s.startTimeMs) ∧
      kTotalMs (kSetTime now n s).1 (now + d)
        = n * 1000 + (if s.isRunning then d else 0)) ∧
    (∀ t0 : Int,
      Int.fdiv
        (kTotalMs
          (kSetTime (t0 + 5000) 3600 (kStart t0 (kInit 0 kInitialState).1)).1
          (t0 + 6000)) 1000 = 3601) ∧
    (∀ (st : StoreState) (now n d : Int),
      (storeSetTime now n st).state.baseDurationMs = n * 1000 ∧
      (storeSetTime now n st).state.startTimeMs
        = (if st.isRunning then now else st.startTimeMs) ∧
      storeTotalMs (storeSetTime now n st).state (now + d)
        = n * 1000 + (if st.isRunning then d else 0)) ∧
    (∀ t0 : Int,
      (calculateState
        ((storeSetTime (t0 + 5000) 3600
          ((storeStart t0 (storeInit 0 true).1).state)).state)
        (t0 + 6000)).totalSeconds = 3601) := by
  refine ⟨?_, ?_, ?_, ?_⟩
  · intro s now n d
    refine ⟨rfl, rfl, ?_⟩
    cases hs : s.isRunning <;> simp [kSetTime, kTotalMs, hs]
  · intro t0
    simp [kInit, kInitialState, kStart, kSetTime, kTotalMs, fdiv_thousand]
  · intro st now n d
    refine ⟨by simp, by simp, ?_⟩
    cases hs : st.isRunning <;> simp [storeTotalMs, hs]
  · intro t0
    simp [storeInit, calculateState, storeTotalMs, fdiv_thousand]

-- ---------------------------------------------------------------------------
-- C3: idempotence of START and PAUSE
-- ---------------------------------------------------------------------------

/-- C3: idempotence of START and PAUSE.  START while already running and
PAUSE while already paused leave the state unchanged (no re-anchoring, no
re-accumulation), and two consecutive STARTs (or PAUSEs) have the same
effect on the clock state as one — the second call of a pair is a complete
no-op (for the store: no state change, no posted message, no notification).
Holds for the kernel command handlers and the store actions alike. -/
theorem C3_start_pause_idempotent :
    (∀ (s : KState) (n1 n2 : Int),
      kStart n2 (kStart n1 s) = kStart n1 s ∧
      kPause n2 (kPause n1 s) = kPause n1 s) ∧
    (∀ (s : KState) (n : Int), s.isRunning = true → kStart n s = s) ∧
    (∀ (s : KState) (n : Int), s.isRunning = false → kPause n s = s) ∧
    (∀ (st : StoreState) (n1 n2 : Int),
      storeStart n2 (storeStart n1 st).state
        = { state := (storeStart n1 st).state, posted := [], notified := false } ∧
      storePause n2 (storePause n1 st).state
        = { state := (storePause n1 st).state, posted := [], notified := false }) ∧
    (∀ (st : StoreState) (n : Int), st.isRunning = true →
      storeStart n st = { state := st, posted := [], notified := false }) ∧
    (∀ (st : StoreState) (n : Int), st.isRunning = false →
      storePause n st = { state := st, posted := [], notified := false }) := by
  refine ⟨?_, ?_, ?_, ?_, ?_, ?_⟩
  · intro s n1 n2
    constructor
    · cases hs : s.isRunning <;> simp [kStart, hs]
    · cases hs : s.isRunning <;> simp [kPause, hs]
  · intro s n h
    simp [kStart, h]
  · intro s n h
    simp [kPause, h]
  · intro st n1 n2
    exact ⟨storeStart_noop n2 _ (storeStart_run n1 st),
           storePause_noop n2 _ (storePause_run n1 st)⟩
  · intro st n h
    exact storeStart_noop n st h
  · intro st n h
    exact storePause_noop n st h

/-- C3 witness: the hypothesis-bearing conjuncts of C3 instantiated at
concrete running and stopped states. -/
theorem C3_witness :
    (kStart 7
        { baseTimeMs := 100, startTimeMs := 3, isRunning := true, lastRenderedSecond := 0 }
      = { baseTimeMs := 100, startTimeMs := 3, isRunning := true, lastRenderedSecond := 0 }) ∧
    (kPause 7 kInitialState = kInitialState) ∧
    (storeStart 7 ((storeStart 0 (storeInit 0 true).1).state)
      = { state := (storeStart 0 (storeInit 0 true).1).state, posted := [], notified := false }) ∧
    (storePause 7 (storeInit 0 true).1
      = { state := (storeInit 0 true).1, posted := [], notified := false }) :=
  ⟨C3_start_pause_idempotent.2.1 _ 7 rfl,
   C3_start_pause_idempotent.2.2.1 _ 7 rfl,
   C3_start_pause_idempotent.2.2.2.2.1 _ 7 (storeStart_run 0 _),
   C3_start_pause_idempotent.2.2.2.2.2 _ 7 rfl⟩

-- ---------------------------------------------------------------------------
-- C4: dirty-check suppression
-- ---------------------------------------------------------------------------

theorem kLoopStep_nofire (t : Int) (s : KState) (c : Int)
    (hlast : s.lastRenderedSecond = c)
    (hsec : Int.fdiv (s.baseTimeMs + (t - s.startTimeMs)) 1000 = c) :
    kLoopStep t s = (s, false) := by
  cases hr : s.isRunning <;> simp [kLoopStep, hr, hsec, hlast]

theorem kRunLoop_nofire (ts : List Int) (s : KState) (c : Int)
    (hlast : s.lastRenderedSecond = c)
    (hsec : ∀ t ∈ ts, Int.fdiv (s.baseTimeMs + (t - s.startTimeMs)) 1000 = c) :
    kRunLoop ts s = (s, 0) := by
  induction ts with
  | nil => rfl
  | cons t rest ih =>
    have hstep := kLoopStep_nofire t s c hlast (hsec t (List.mem_cons_self t rest))
    simp [kRunLoop, hstep, ih (fun u hu => hsec u (List.mem_cons_of_mem t hu))]

theorem emitChange_nofire (t : Int) (st : StoreState)
    (h1 : (calculateState st t).totalSeconds = st.snapshot.totalSeconds)
    (h2 : st.isRunning = st.snapshot.isRunning) :
    emitChange t st = (st, false) := by
  have h3 : (calculateState st t).isRunning = st.isRunning := rfl
  simp [emitChange, h1, h3, h2]

theorem calculateState_snapshot_irrel (st : StoreState) (x : Snapshot) (t : Int) :
    calculateState { st with snapshot := x } t = calculateState st t := rfl

theorem storeRunTicks_nofire (ts : List Int) (st : StoreState) (c : Int)
    (hsnap : st.snapshot.totalSeconds = c)
    (hrun : st.snapshot.isRunning = st.isRunning)
    (hsec : ∀ t ∈ ts, (calculateState st t).totalSeconds = c) :
    storeRunTicks ts st = (st, 0) := by
  induction ts with
  | nil => rfl
  | cons t rest ih =>
    have hstep := emitChange_nofire t st
      (by rw [hsec t (List.mem_cons_self t rest), hsnap]) hrun.symm
    simp [storeRunTicks, hstep, ih (fun u hu => hsec u (List.mem_cons_of_mem t hu))]

/-- C4: dirty-check suppression.  Across any sequence of render-loop
invocations (kernel) or TICK-driven emitChange calls (store) whose computed
whole-second value is one and the same, the expensive path — the paint, or
the snapshot replacement plus listener notification — fires at most once;
and each single invocation fires exactly when the computed second differs
from `lastRenderedSecond` (kernel) or the derived (totalSeconds, isRunning)
pair differs from the cached snapshot (store), recording what it painted
respectively installing the recomputed snapshot when it does. -/
theorem C4_dirty_check_suppression :
    (∀ (s : KState) (ts : List Int) (c : Int),
      (∀ t ∈ ts, Int.fdiv (s.baseTimeMs + (t - s.startTimeMs)) 1000 = c) →
      (kRunLoop ts s).2 ≤ 1) ∧
    (∀ (s : KState) (t : Int),
      ((kLoopStep t s).2 = true ↔
        s.isRunning = true ∧
          Int.fdiv (s.baseTimeMs + (t - s.startTimeMs)) 1000 ≠ s.lastRenderedSecond) ∧
      ((kLoopStep t s).2 = true →
        (kLoopStep t s).1.lastRenderedSecond
          = Int.fdiv (s.baseTimeMs + (t - s.startTimeMs)) 1000)) ∧
    (∀ (st : StoreState) (ts : List Int) (c : Int),
      (∀ t ∈ ts, (calculateState st t).totalSeconds = c) →
      (storeRunTicks ts st).2 ≤ 1) ∧
    (∀ (st : StoreState) (t : Int),
      ((emitChange t st).2 = true ↔
        ((calculateState st t).totalSeconds ≠ st.snapshot.totalSeconds ∨
          st.isRunning ≠ st.snapshot.isRunning)) ∧
      ((emitChange t st).2 = true →
        (emitChange t st).1.snapshot = calculateState st t)) := by
  refine ⟨?_, ?_, ?_, ?_⟩
  · intro s ts c hsec
    induction ts with
    | nil => simp [kRunLoop]
    | cons t rest ih =>
      have hc := hsec t (List.mem_cons_self t rest)
      have hrest : ∀ u ∈ rest, Int.fdiv (s.baseTimeMs + (u - s.startTimeMs)) 1000 = c :=
        fun u hu => hsec u (List.mem_cons_of_mem t hu)
      cases hr : s.isRunning
      · have hstep : kLoopStep t s = (s, false) := by simp [kLoopStep, hr]
        simpa [kRunLoop, hstep] using ih hrest
      · by_cases heq : c = s.lastRenderedSecond
        · have hstep := kLoopStep_nofire t s c heq.symm hc
          simpa [kRunLoop, hstep] using ih hrest
        · have hstep : kLoopStep t s
              = ({ s with lastRenderedSecond := c }, true) := by
            simp [kLoopStep, hr, hc, heq]
          have hrest2 : kRunLoop rest { s with lastRenderedSecond := c }
              = ({ s with lastRenderedSecond := c }, 0) :=
            kRunLoop_nofire rest _ c rfl hrest
          simp [kRunLoop, hstep, hrest2]
  · intro s t
    constructor
    · cases hr : s.isRunning
      · simp [kLoopStep, hr]
      · by_cases heq : Int.fdiv (s.baseTimeMs + (t - s.startTimeMs)) 1000
            = s.lastRenderedSecond <;> simp [kLoopStep, hr, heq]
    · cases hr : s.isRunning
      · simp [kLoopStep, hr]
      · by_cases heq : Int.fdiv (s.baseTimeMs + (t - s.startTimeMs)) 1000
            = s.lastRenderedSecond <;> simp [kLoopStep, hr, heq]
  · intro st ts c hsec
    induction ts with
    | nil => simp [storeRunTicks]
    | cons t rest ih =>
      have hc := hsec t (List.mem_cons_self t rest)
      have hrest : ∀ u ∈ rest, (calculateState st u).totalSeconds = c :=
        fun u hu => hsec u (List.mem_cons_of_mem t hu)
      by_cases hfire : (calculateState st t).totalSeconds ≠ st.snapshot.totalSeconds ∨
          (calculateState st t).isRunning ≠ st.snapshot.isRunning
      · have hstep : emitChange t st
            = ({ st with snapshot := calculateState st t }, true) := by
          simp only [emitChange]
          rw [if_pos hfire]
        have hrest2 : storeRunTicks rest { st with snapshot := calculateState st t }
            = ({ st with snapshot := calculateState st t }, 0) := by
          refine storeRunTicks_nofire rest _ c hc rfl ?_
          intro u hu
          rw [calculateState_snapshot_irrel]
          exact hrest u hu
        simp [storeRunTicks, hstep, hrest2]
      · push_neg at hfire
        have hstep : emitChange t st = (st, false) :=
          emitChange_nofire t st hfire.1 (by
            have := hfire.2
            simpa [calculateState] using this)
        simpa [storeRunTicks, hstep] using ih hrest
  · intro st t
    constructor
    · have h3 : (calculateState st t).isRunning = st.isRunning := rfl
      by_cases hfire : (calculateState st t).totalSeconds ≠ st.snapshot.totalSeconds ∨
          (calculateState st t).isRunning ≠ st.snapshot.isRunning
      · simp only [emitChange]
        rw [if_pos hfire]
        simpa [h3] using hfire
      · simp only [emitChange]
        rw [if_neg hfire]
        push_neg at hfire
        have h4 : st.isRunning = st.snapshot.isRunning := by
          rw [← h3]; exact hfire.2
        simp [hfire.1, h4]
    · by_cases hfire : (calculateState st t).totalSeconds ≠ st.snapshot.totalSeconds ∨
          (calculateState st t).isRunning ≠ st.snapshot.isRunning
      · simp only [emitChange]
        rw [if_pos hfire]
        intro
        rfl
      · simp only [emitChange]
        rw [if_neg hfire]
        simp

/-- C4 witness: three frame ticks inside the same whole second paint at most
once, and three TICK recomputes inside the same whole second notify at most
once, at concrete inputs. -/
theorem C4_witness :
    ((∀ t ∈ [(0 : Int), 100, 200],
        Int.fdiv (kSample.baseTimeMs + (t - kSample.startTimeMs)) 1000 = 0) ∧
      (kRunLoop [0, 100, 200] kSample).2 ≤ 1) ∧
    ((∀ t ∈ [(0 : Int), 100, 200], (calculateState stSample t).totalSeconds = 0) ∧
      (storeRunTicks [0, 100, 200] stSample).2 ≤ 1) :=
  ⟨⟨by decide, C4_dirty_check_suppression.1 kSample [0, 100, 200] 0 (by decide)⟩,
   ⟨by decide, C4_dirty_check_suppression.2.2.1 stSample [0, 100, 200] 0 (by decide)⟩⟩

-- ---------------------------------------------------------------------------
-- Digit-table lemmas
-- ---------------------------------------------------------------------------

theorem digitAt_lt_60 (i : Nat) (h : i < 60) : digitAt i = pad2 i := by
  have hall : ∀ j : Fin 60, digitAt j.val = pad2 j.val := by decide
  exact hall ⟨i, h⟩

theorem jsPad_repr_lt_100 (h : Nat) (hh : h < 100) :
    jsPadStart2 (Nat.repr h) = pad2 h ∧ (pad2 h).length = 2 := by
  have hall : ∀ j : Fin 100,
      jsPadStart2 (Nat.repr j.val) = pad2 j.val ∧ (pad2 j.val).length = 2 := by decide
  exact hall ⟨h, hh⟩

-- ---------------------------------------------------------------------------
-- C5: negative-time divergence between kernel and store
-- ---------------------------------------------------------------------------

/-- C5: negative-time divergence.  After START at zero elapsed followed by
ADJUST_TIME(-10), the kernel paints the signed zero-padded string
"-00:00:10", while the store (same scenario driven through setTime(-10), its
only total-writing action) clamps the reported total to zero and displays
"00:00:00"; the store's reported totalSeconds is never negative. -/
theorem C5_negative_time_divergence :
    (∀ t0 : Int,
      timeText (kAdjustTime t0 (-10) (kStart t0 (kInit 0 kInitialState).1)).2
        = "-00:00:10") ∧
    (∀ t0 : Int,
      (storeSetTime t0 (-10)
          ((storeStart t0 (storeInit 0 true).1).state)).state.snapshot.totalSeconds = 0 ∧
      (storeSetTime t0 (-10)
          ((storeStart t0 (storeInit 0 true).1).state)).state.snapshot.displayTime
        = "00:00:00") ∧
    (∀ (st : StoreState) (now : Int), 0 ≤ (calculateState st now).totalSeconds) := by
  refine ⟨?_, ?_, ?_⟩
  · intro t0
    have hsec : (kAdjustTime t0 (-10) (kStart t0 (kInit 0 kInitialState).1)).2 = -10 := by
      simp [kInit, kInitialState, kStart, kAdjustTime, fdiv_thousand]
    rw [hsec]
    decide
  · intro t0
    simp [storeInit, storeStart, storeSetTime, emitChange, calculateState,
      storeTotalMs, fdiv_thousand]
    decide
  · intro st now
    simp [calculateState]

-- ---------------------------------------------------------------------------
-- C9: kernel hours field wraps modulo 60
-- ---------------------------------------------------------------------------

/-- C9: the kernel's painted string is the sign prefix followed by the
two-digit zero-padded fields floor(abs(s)/3600) mod 60 (hours wrap at 60),
floor((abs(s) mod 3600)/60) and abs(s) mod 60 — in particular a total of 60
hours paints "00:00:00". -/
theorem C9_hours_wrap_mod_60 :
    (∀ s : Int,
      timeText s
        = (if s < 0 then "-" else "")
          ++ pad2 (s.natAbs / 3600 % 60) ++ ":"
          ++ pad2 (s.natAbs % 3600 / 60) ++ ":"
          ++ pad2 (s.natAbs % 60)) ∧
    timeText 216000 = "00:00:00" := by
  constructor
  · intro s
    have h1 : s.natAbs / 3600 % 60 < 60 := by omega
    have h2 : s.natAbs % 3600 / 60 < 60 := by omega
    have h3 : s.natAbs % 60 < 60 := by omega
    simp [timeText, digitAt_lt_60 _ h1, digitAt_lt_60 _ h2, digitAt_lt_60 _ h3]
  · decide

-- ---------------------------------------------------------------------------
-- C10: display width of the store's formatTime
-- ---------------------------------------------------------------------------

/-- C10 counterexample: at 100 hours (360000 seconds) the store's formatTime
produces "100:00:00" — a three-digit hours field and a nine-character
string, refuting the claim that the hours field is always exactly two digits
including for totals of 100 hours or more. -/
theorem C10_counterexample :
    formatTime 360000 = "100:00:00" ∧ (formatTime 360000).length ≠ 8 := by
  decide

/-- C10 amended: for every non-negative total below 100 hours the display is
exactly three two-digit zero-padded fields separated by colons; from 100
hours on, the hours field keeps all its digits (padStart never truncates),
so the claim's "exactly two digits for 100 hours or more" fails. -/
theorem C10_amended (n : Nat) (h : n < 360000) :
    formatTime n
      = pad2 (n / 3600) ++ ":" ++ pad2 (n % 3600 / 60) ++ ":" ++ pad2 (n % 60) ∧
    (pad2 (n / 3600)).length = 2 ∧
    (pad2 (n % 3600 / 60)).length = 2 ∧
    (pad2 (n % 60)).length = 2 := by
  have h1 : n / 3600 < 100 := by omega
  have h2 : n % 3600 / 60 < 100 := by omega
  have h3 : n % 60 < 100 := by omega
  obtain ⟨e1, l1⟩ := jsPad_repr_lt_100 _ h1
  obtain ⟨e2, l2⟩ := jsPad_repr_lt_100 _ h2
  obtain ⟨e3, l3⟩ := jsPad_repr_lt_100 _ h3
  exact ⟨by simp [formatTime, e1, e2, e3], l1, l2, l3⟩

/-- C10 witness: the amended statement instantiated at 7325 seconds
(02:02:05). -/
theorem C10_amended_witness :
    7325 < 360000 ∧
    (formatTime 7325
        = pad2 (7325 / 3600) ++ ":" ++ pad2 (7325 % 3600 / 60) ++ ":" ++ pad2 (7325 % 60) ∧
      (pad2 (7325 / 3600)).length = 2 ∧
      (pad2 (7325 % 3600 / 60)).length = 2 ∧
      (pad2 (7325 % 60)).length = 2) :=
  ⟨by decide, C10_amended 7325 (by decide)⟩

-- ---------------------------------------------------------------------------
-- C6: store actions and the dirty check
-- ---------------------------------------------------------------------------

theorem emitChange_cases (now : Int) (st : StoreState) :
    (emitChange now st = ({ st with snapshot := calculateState st now }, true) ∧
      ((calculateState st now).totalSeconds ≠ st.snapshot.totalSeconds ∨
        st.isRunning ≠ st.snapshot.isRunning)) ∨
    (emitChange now st = (st, false) ∧
      (calculateState st now).totalSeconds = st.snapshot.totalSeconds ∧
      st.isRunning = st.snapshot.isRunning) := by
  have h3 : (calculateState st now).isRunning = st.isRunning := rfl
  by_cases h : (calculateState st now).totalSeconds ≠ st.snapshot.totalSeconds ∨
      (calculateState st now).isRunning ≠ st.snapshot.isRunning
  · left
    refine ⟨?_, ?_⟩
    · simp only [emitChange]; rw [if_pos h]
    · rwa [h3] at h
  · right
    have hn := h
    push_neg at hn
    refine ⟨?_, hn.1, by rw [← h3]; exact hn.2⟩
    simp only [emitChange]; rw [if_neg h]

theorem calculateState_ext (a b : StoreState) (t : Int)
    (h1 : a.baseDurationMs = b.baseDurationMs) (h2 : a.startTimeMs = b.startTimeMs)
    (h3 : a.isRunning = b.isRunning) : calculateState a t = calculateState b t := by
  simp [calculateState, storeTotalMs, h1, h2, h3]

theorem emitChange_snapshot_calc (now : Int) (st1 : StoreState) :
    calculateState (emitChange now st1).1 now = calculateState st1 now := by
  rcases emitChange_cases now st1 with ⟨heq, _⟩ | ⟨heq, _, _⟩
  · rw [heq]
    exact calculateState_snapshot_irrel st1 _ now
  · rw [heq]

theorem emitChange_notified_iff (now : Int) (st1 : StoreState) :
    (emitChange now st1).2 = true ↔
      ((calculateState st1 now).totalSeconds ≠ st1.snapshot.totalSeconds ∨
        st1.isRunning ≠ st1.snapshot.isRunning) := by
  rcases emitChange_cases now st1 with ⟨heq, hc⟩ | ⟨heq, hc1, hc2⟩
  · rw [heq]
    simpa using hc
  · rw [heq]
    simp [hc1, hc2]

theorem emitChange_snapshot_of_fired (now : Int) (st1 : StoreState) :
    (emitChange now st1).2 = true → (emitChange now st1).1.snapshot = calculateState st1 now := by
  rcases emitChange_cases now st1 with ⟨heq, _⟩ | ⟨heq, _, _⟩ <;> rw [heq] <;> simp

theorem emitChange_snapshot_of_not_fired (now : Int) (st1 : StoreState) :
    (emitChange now st1).2 = false → (emitChange now st1).1.snapshot = st1.snapshot := by
  rcases emitChange_cases now st1 with ⟨heq, _⟩ | ⟨heq, _, _⟩ <;> rw [heq] <;> simp

/-- C6 counterexample: with the clock stopped at 5 seconds and the snapshot
already showing (5, not running), setTime(5) — the displayed whole second,
running flag unchanged — produces no snapshot replacement and no listener
notification, refuting the claim that store actions bypass the dirty check. -/
theorem C6_counterexample :
    (storeSetTime 0 5 stDirty).notified = false ∧
    (storeSetTime 0 5 stDirty).state.snapshot = stDirty.snapshot := by
  decide

/-- C6 amended: the store actions do force an immediate recompute via
emitChange (no waiting for the next wake signal), but the dirty check still
applies: setTime replaces the snapshot and notifies listeners exactly when
the recomputed (totalSeconds, isRunning) pair differs from the cached
snapshot, and when it does not fire the snapshot object is physically
unchanged; likewise a start or pause that does not notify leaves the
snapshot unchanged. -/
theorem C6_amended (st : StoreState) (now secs : Int) :
    ((storeSetTime now secs st).notified = false →
      (storeSetTime now secs st).state.snapshot = st.snapshot) ∧
    ((storeSetTime now secs st).notified = true ↔
      ((calculateState (storeSetTime now secs st).state now).totalSeconds
          ≠ st.snapshot.totalSeconds ∨
        st.isRunning ≠ st.snapshot.isRunning)) ∧
    ((storeSetTime now secs st).notified = true →
      (storeSetTime now secs st).state.snapshot
        = calculateState (storeSetTime now secs st).state now) ∧
    ((storeStart now st).notified = false →
      (storeStart now st).state.snapshot = st.snapshot) ∧
    ((storePause now st).notified = false →
      (storePause now st).state.snapshot = st.snapshot) := by
  refine ⟨?_, ?_, ?_, ?_, ?_⟩
  · intro h
    unfold storeSetTime at h ⊢
    dsimp only at h ⊢
    exact (emitChange_snapshot_of_not_fired now _ h).trans rfl
  · unfold storeSetTime
    dsimp only
    rw [emitChange_snapshot_calc]
    exact emitChange_notified_iff now _
  · intro h
    unfold storeSetTime at h ⊢
    dsimp only at h ⊢
    rw [emitChange_snapshot_calc]
    exact emitChange_snapshot_of_fired now _ h
  · intro h
    by_cases hr : st.isRunning = true
    · rw [storeStart_noop now st hr]
    · unfold storeStart at h ⊢
      rw [if_neg hr] at h ⊢
      dsimp only at h ⊢
      exact (emitChange_snapshot_of_not_fired now _ h).trans rfl
  · intro h
    by_cases hr : st.isRunning = true
    · unfold storePause at h ⊢
      rw [if_pos hr] at h ⊢
      dsimp only at h ⊢
      exact (emitChange_snapshot_of_not_fired now _ h).trans rfl
    · rw [storePause_noop now st (by simpa using hr)]

/-- C6 witness: the amended theorem's first conjunct applied at the concrete
unchanged-tuple input. -/
theorem C6_amended_witness :
    (storeSetTime 0 5 stDirty).notified = false →
      (storeSetTime 0 5 stDirty).state.snapshot = stDirty.snapshot :=
  (C6_amended stDirty 0 5).1

-- ---------------------------------------------------------------------------
-- C7: malformed kernel commands
-- ---------------------------------------------------------------------------

/-- C7 counterexample: a SET_TIME message whose payload is absent makes the
kernel's onmessage handler throw (reading `seconds` of undefined), refuting
"terminates normally without throwing"; and a SET_TIME message whose payload
is an empty object terminates but corrupts the state — baseTimeMs becomes
NaN and lastRenderedSecond becomes undefined — refuting "the clock state is
unchanged". -/
theorem C7_counterexample :
    rawOnMessage 0 { type := "SET_TIME", payload := none } rawReadyState = .error () ∧
    rawOnMessage 0 { type := "SET_TIME", payload := some [] } rawReadyState
      = .ok { rawReadyState with baseTimeMs := .nan, lastRenderedSecond := .undef } := by
  constructor
  · rfl
  · rfl

/-- C7 amended: the kernel handler is only safe against unrecognized type
tags — those fall through the switch, terminate normally and leave the state
untouched; recognized commands perform no payload validation, so SET_TIME or
ADJUST_TIME with an absent payload throws a TypeError out of the handler,
and a SET_TIME payload lacking a numeric `seconds` field terminates but
writes NaN into baseTimeMs (see the counterexample). -/
theorem C7_amended :
    (∀ (tag : String) (payload : Option (List (String × JsPrim)))
        (s : RawKState) (now : Int),
      tag ∉ ["INIT", "RESIZE", "UPDATE_CONFIG", "START", "PAUSE", "SET_TIME", "ADJUST_TIME"] →
      rawOnMessage now { type := tag, payload := payload } s = .ok s) ∧
    (∀ (s : RawKState) (now : Int),
      rawOnMessage now { type := "SET_TIME", payload := none } s = .error ()) ∧
    (∀ (s : RawKState) (now : Int),
      rawOnMessage now { type := "ADJUST_TIME", payload := none } s = .error ()) := by
  refine ⟨?_, ?_, ?_⟩
  · intro tag payload s now h
    simp only [rawOnMessage]
    split
    all_goals first
      | rfl
      | (exfalso; simp_all)
  · intro s now
    rfl
  · intro s now
    rfl

/-- C7 amended witness: a message with the unrecognized tag BOGUS leaves a
concrete healthy kernel state unchanged without throwing. -/
theorem C7_amended_witness :
    "BOGUS" ∉ ["INIT", "RESIZE", "UPDATE_CONFIG", "START", "PAUSE", "SET_TIME", "ADJUST_TIME"] ∧
    rawOnMessage 0 { type := "BOGUS", payload := none } rawReadyState = .ok rawReadyState :=
  ⟨by decide, C7_amended.1 "BOGUS" none rawReadyState 0 (by decide)⟩

-- ---------------------------------------------------------------------------
-- C8: graceful degradation on worker initialization failure
-- ---------------------------------------------------------------------------

/-- C8: graceful degradation.  When the worker constructor throws, the store
completes initialization normally (the model is a total function: the catch
block swallows the exception), logs "Clock Worker Init Failed:", keeps the
initial snapshot (initial seconds, not running) and a null worker reference;
and with a null worker every subsequent start, pause or setTime mutates only
local state and posts no message to any worker. -/
theorem C8_graceful_degradation :
    (∀ n : Nat,
      (storeInit n false).1.worker = false ∧
      (storeInit n false).1.snapshot
        = { displayTime := formatTime n, totalSeconds := (n : Int), isRunning := false } ∧
      (storeInit n false).1.isRunning = false ∧
      (storeInit n false).2 = ["Clock Worker Init Failed:"]) ∧
    (∀ (st : StoreState) (now secs : Int), st.worker = false →
      (storeStart now st).posted = [] ∧
      (storePause now st).posted = [] ∧
      (storeSetTime now secs st).posted = []) := by
  constructor
  · intro n
    exact ⟨rfl, rfl, rfl, rfl⟩
  · intro st now secs h
    refine ⟨?_, ?_, ?_⟩
    · cases hr : st.isRunning <;> simp [storeStart, hr, h]
    · cases hr : st.isRunning <;> simp [storePause, hr, h]
    · simp [storeSetTime]

/-- C8 witness: the posted-message conjunct applied at a concrete store
state whose worker reference is null. -/
theorem C8_witness :
    stNoWorker.worker = false ∧
    ((storeStart 0 stNoWorker).posted = [] ∧
      (storePause 0 stNoWorker).posted = [] ∧
      (storeSetTime 0 30 stNoWorker).posted = []) :=
  ⟨rfl, C8_graceful_degradation.2 stNoWorker 0 30 rfl⟩
